import Mathlib

/-!
Verification of the `src/script.py` configuration script of the
hoomd-examples repository against its natural-language specification.

The script is a straight-line Python module that drives the external
HOOMD-blue molecular-dynamics engine through its scripting API.  We embed
the script shallowly: each Python statement becomes an element of a small
statement grammar (imports, bare call expressions, assignments of a call
result to a variable, attribute reads/writes, try/except blocks and local
function definitions).  The grammar deliberately contains constructors the
script never uses — try/except, attribute reads and writes, function
definitions — so that claims of the form "the script contains no X" are
statements about the embedded script, not artifacts of the embedding.

Numeric literals are embedded as exact rationals; scientific-notation
literals such as `2e3` and `1e4` are written with the same notation in the
embedding, so claims about what those literals denote are claims about the
embedded values.
-/

namespace HoomdScript

/-- A Python variable of the script that holds a handle returned by the
external engine.  The script binds exactly three such variables:
`nl` (the neighbor list), `lj` (the pair potential) and `all`
(the group of all particles, named `allGroup` here because `all` is
taken in Lean). -/
inductive HandleId where
  | nl
  | lj
  | allGroup
  deriving DecidableEq

/-- An argument value appearing in one of the script's calls.
`latticeSC a` embeds the inline nested call `hoomd.lattice.sc(a=...)`
appearing as the `unitcell` argument of `create_lattice`. -/
inductive Value where
  | num (q : ℚ)
  | str (s : String)
  | strList (ss : List String)
  | bool (b : Bool)
  | handle (h : HandleId)
  | latticeSC (a : ℚ)
  deriving DecidableEq

/-- The callee of a call: either a fully qualified library function
(e.g. `hoomd.md.pair.lj`, given by its dotted path) or a method reached
from a handle variable (e.g. `lj.pair_coeff.set`, given by the receiver
handle and the attribute path). -/
inductive Callee where
  | libFn (path : List String)
  | method (recv : HandleId) (path : List String)
  deriving DecidableEq

/-- A call expression: a callee applied to a list of keyword arguments.
Positional arguments of the source are recorded under the name of the
API parameter they bind. -/
structure Call where
  callee : Callee
  args : List (String × Value)
  deriving DecidableEq

/-- A statement of the embedded Python module.  The script itself only
uses `importMod`, `exprCall` and `assignCall`; the remaining
constructors (`attrRead`, `attrWrite`, `tryExcept`, `defineFunction`)
exist so that their absence from the script is a provable fact rather
than a modelling assumption. -/
inductive PyStmt where
  | importMod (m : String)
  | exprCall (c : Call)
  | assignCall (target : HandleId) (c : Call)
  | attrRead (target : HandleId) (h : HandleId) (attrs : List String)
  | attrWrite (h : HandleId) (attrs : List String) (v : Value)
  | tryExcept (body : List Call) (handler : List Call)
  | defineFunction (name : String)
  deriving DecidableEq

open PyStmt Callee Value

/-- The embedded script: `src/script.py`, statement by statement, in
source order. -/
def script : List PyStmt :=
  [ importMod ("hoomd"),
    importMod ("hoomd.md"),
    exprCall ⟨libFn ["hoomd", "context", "initialize"], []⟩,
    exprCall ⟨libFn ["hoomd", "init", "create_lattice"],
      [("unitcell", latticeSC 2.0), ("n", num 5)]⟩,
    assignCall .nl ⟨libFn ["hoomd", "md", "nlist", "cell"], []⟩,
    assignCall .lj ⟨libFn ["hoomd", "md", "pair", "lj"],
      [("r_cut", num 2.5), ("nlist", handle .nl)]⟩,
    exprCall ⟨method .lj ["pair_coeff", "set"],
      [("type1", str ("A")), ("type2", str ("A")),
       ("epsilon", num 1.0), ("sigma", num 1.0)]⟩,
    assignCall .allGroup ⟨libFn ["hoomd", "group", "all"], []⟩,
    exprCall ⟨libFn ["hoomd", "md", "integrate", "mode_standard"],
      [("dt", num 0.005)]⟩,
    exprCall ⟨libFn ["hoomd", "md", "integrate", "langevin"],
      [("group", handle .allGroup), ("kT", num 0.2), ("seed", num 42)]⟩,
    exprCall ⟨libFn ["hoomd", "analyze", "log"],
      [("filename", str ("log-output.log")),
       ("quantities", strList ["potential_energy"]),
       ("period", num 100), ("overwrite", bool true)]⟩,
    exprCall ⟨libFn ["hoomd", "dump", "gsd"],
      [("filename", str ("trajectory.gsd")), ("period", num 2e3),
       ("group", handle .allGroup), ("overwrite", bool true)]⟩,
    exprCall ⟨libFn ["hoomd", "run"], [("tsteps", num 1e4)]⟩ ]

/-- Is this statement a call to `hoomd.analyze.log`? -/
def isAnalyzeLog : PyStmt → Bool
  | exprCall c => c.callee = libFn ["hoomd", "analyze", "log"]
  | assignCall _ c => c.callee = libFn ["hoomd", "analyze", "log"]
  | _ => false

/-- Is this statement a call to `hoomd.dump.gsd`? -/
def isDumpGsd : PyStmt → Bool
  | exprCall c => c.callee = libFn ["hoomd", "dump", "gsd"]
  | assignCall _ c => c.callee = libFn ["hoomd", "dump", "gsd"]
  | _ => false

/-- Is this statement a call to `hoomd.group.all`? -/
def isGroupAll : PyStmt → Bool
  | exprCall c => c.callee = libFn ["hoomd", "group", "all"]
  | assignCall _ c => c.callee = libFn ["hoomd", "group", "all"]
  | _ => false

/-- Is this statement a call to `hoomd.run`? -/
def isRunCall : PyStmt → Bool
  | exprCall c => c.callee = libFn ["hoomd", "run"]
  | assignCall _ c => c.callee = libFn ["hoomd", "run"]
  | _ => false

/-- Is this statement a call to `hoomd.md.integrate.mode_standard`? -/
def isModeStandard : PyStmt → Bool
  | exprCall c => c.callee = libFn ["hoomd", "md", "integrate", "mode_standard"]
  | assignCall _ c => c.callee = libFn ["hoomd", "md", "integrate", "mode_standard"]
  | _ => false

/-- Is this statement a call to `hoomd.md.integrate.langevin`? -/
def isLangevin : PyStmt → Bool
  | exprCall c => c.callee = libFn ["hoomd", "md", "integrate", "langevin"]
  | assignCall _ c => c.callee = libFn ["hoomd", "md", "integrate", "langevin"]
  | _ => false

/-- Is this statement a call to `hoomd.init.create_lattice`? -/
def isCreateLattice : PyStmt → Bool
  | exprCall c => c.callee = libFn ["hoomd", "init", "create_lattice"]
  | assignCall _ c => c.callee = libFn ["hoomd", "init", "create_lattice"]
  | _ => false

/-- Is this statement the `lj.pair_coeff.set` method call? -/
def isPairCoeffSet : PyStmt → Bool
  | exprCall c => c.callee = method .lj ["pair_coeff", "set"]
  | assignCall _ c => c.callee = method .lj ["pair_coeff", "set"]
  | _ => false

/-- The call performed by a statement, when the statement is a call. -/
def callOf : PyStmt → Option Call
  | exprCall c => some c
  | assignCall _ c => some c
  | _ => none

/-- Is this statement an external-library invocation (a top-level call)? -/
def isLibCall (s : PyStmt) : Bool :=
  (callOf s).isSome

/-- Is this statement an import? -/
def isImport : PyStmt → Bool
  | importMod _ => true
  | _ => false

/-- Look up a keyword argument of a call by its name. -/
def argOf (c : Call) (n : String) : Option Value :=
  (c.args.find? (fun p => p.1 = n)).map Prod.snd

/-- The value of argument `n` of the first statement satisfying `p`,
among the statements of the script. -/
def firstCallArg (p : PyStmt → Bool) (n : String) : Option Value :=
  ((script.filter p).head?.bind callOf).bind (fun c => argOf c n)

/-- The configuration stages of the script, as the specification names
them. -/
inductive Phase where
  | initContext
  | buildLattice
  | definePotential
  | defineIntegrator
  | defineOutput
  | runSim
  deriving DecidableEq

/-- The stage a callee belongs to, read off from the library submodule it
lives in: `hoomd.context` initializes the context, `hoomd.init` and
`hoomd.lattice` build the lattice, `hoomd.md.nlist` / `hoomd.md.pair`
(and methods of the `lj`
potential handle) define the potential, `hoomd.group` / `hoomd.md.integrate`
define the integrator, `hoomd.analyze` / `hoomd.dump` define the output
writers, and `hoomd.run` runs the simulation. -/
def calleePhase : Callee → Option Phase
  | libFn ("hoomd" :: "context" :: _) => some .initContext
  | libFn ("hoomd" :: "init" :: _) => some .buildLattice
  | libFn ("hoomd" :: "lattice" :: _) => some .buildLattice
  | libFn ("hoomd" :: "md" :: "nlist" :: _) => some .definePotential
  | libFn ("hoomd" :: "md" :: "pair" :: _) => some .definePotential
  | libFn ("hoomd" :: "group" :: _) => some .defineIntegrator
  | libFn ("hoomd" :: "md" :: "integrate" :: _) => some .defineIntegrator
  | libFn ("hoomd" :: "analyze" :: _) => some .defineOutput
  | libFn ("hoomd" :: "dump" :: _) => some .defineOutput
  | libFn ["hoomd", "run"] => some .runSim
  | libFn _ => none
  | method .lj _ => some .definePotential
  | method _ _ => none

/-- The stage of a statement: the stage of the call it performs. -/
def phaseOfStmt (s : PyStmt) : Option Phase :=
  (callOf s).bind (fun c => calleePhase c.callee)

/-- The inline library calls a value contains: `latticeSC a` embeds the
nested invocation `hoomd.lattice.sc(a=...)` of source line 6, which
Python evaluates — calling into the library — before the call it is an
argument of. -/
def valueCalls : Value → List Call
  | latticeSC a => [⟨libFn ["hoomd", "lattice", "sc"], [("a", num a)]⟩]
  | _ => []

/-- Every external-library invocation a statement performs, in evaluation
order: nested calls in argument position first, then the statement's own
call. -/
def stmtCalls : PyStmt → List Call
  | exprCall c => c.args.flatMap (fun p => valueCalls p.2) ++ [c]
  | assignCall _ c => c.args.flatMap (fun p => valueCalls p.2) ++ [c]
  | tryExcept body handler => body ++ handler
  | _ => []

/-- Every external-library invocation of a statement list, in the order
the interpreter performs them — unlike `topCalls`, this includes calls
nested in argument position. -/
def allLibCalls (stmts : List PyStmt) : List Call :=
  stmts.flatMap stmtCalls

/-- Is the callee part of the `hoomd` library (a `hoomd.*` function or a
method of an engine-returned handle)? -/
def isHoomdCallee : Callee → Bool
  | libFn ("hoomd" :: _) => true
  | libFn _ => false
  | method _ _ => true

/-- Is this module name a `hoomd` module? -/
def isHoomdModule : String → Bool
  | "hoomd" => true
  | "hoomd.md" => true
  | _ => false

/-- Does the statement only import a `hoomd` module or call into the
`hoomd` library? -/
def isHoomdOnly : PyStmt → Bool
  | importMod m => isHoomdModule m
  | exprCall c => isHoomdCallee c.callee
  | assignCall _ c => isHoomdCallee c.callee
  | _ => false

/-- The handles occurring in a value. -/
def valueHandles : Value → List HandleId
  | handle h => [h]
  | _ => []

/-- The handles a call consumes: the method receiver (which Python passes
to the bound library function as its `self` argument) and every handle
passed among the arguments. -/
def callInputHandles (c : Call) : List HandleId :=
  (match c.callee with
    | method r _ => [r]
    | libFn _ => []) ++ c.args.flatMap (fun p => valueHandles p.2)

/-- The handles a statement uses (in any position). -/
def usedHandles : PyStmt → List HandleId
  | exprCall c => callInputHandles c
  | assignCall _ c => callInputHandles c
  | attrRead _ h _ => [h]
  | attrWrite h _ v => h :: valueHandles v
  | tryExcept body handler => (body ++ handler).flatMap callInputHandles
  | _ => []

/-- The handle a statement binds, if any. -/
def boundHandles : PyStmt → List HandleId
  | assignCall t _ => [t]
  | attrRead t _ _ => [t]
  | _ => []

/-- Does the statement read or write an attribute of a handle (outside a
call), i.e. inspect or directly mutate the handle's state? -/
def inspectsOrMutatesHandle : PyStmt → Bool
  | attrRead _ _ _ => true
  | attrWrite _ _ _ => true
  | _ => false

/-- Every handle a statement uses was bound by an earlier statement. -/
def handlesWellScopedFrom (bound : List HandleId) : List PyStmt → Bool
  | [] => true
  | s :: rest =>
      (usedHandles s).all (fun h => decide (h ∈ bound)) &&
        handlesWellScopedFrom (bound ++ boundHandles s) rest

/-- Every handle used anywhere in the statement list was bound by an
earlier statement of the list. -/
def handlesWellScoped (stmts : List PyStmt) : Bool :=
  handlesWellScopedFrom [] stmts

/-- Number of try/except statements in the statement list. -/
def tryCount : List PyStmt → Nat
  | [] => 0
  | tryExcept _ _ :: rest => tryCount rest + 1
  | _ :: rest => tryCount rest

/-- The top-level calls of the statement list, in order. -/
def topCalls : List PyStmt → List Call
  | [] => []
  | s :: rest =>
      match callOf s with
      | some c => c :: topCalls rest
      | none => topCalls rest

/-- Run a list of calls under an oracle `raises` telling which calls raise
which exception: the result is the exception of the first raising call,
or `none` when every call returns normally. -/
def execCalls (raises : Call → Option String) : List Call → Option String
  | [] => none
  | c :: rest =>
      match raises c with
      | some e => some e
      | none => execCalls raises rest

/-- Run the statement list under the oracle `raises`, with Python's
exception semantics: statements execute in order; an exception raised by
a call aborts the module with that exception, except that a `try` block
routes an exception of its body into its handler (whose own exceptions
propagate).  The result is the exception reaching the process boundary,
or `none` for a normal exit. -/
def execStmts (raises : Call → Option String) : List PyStmt → Option String
  | [] => none
  | importMod _ :: rest => execStmts raises rest
  | exprCall c :: rest =>
      (match raises c with
        | some e => some e
        | none => execStmts raises rest)
  | assignCall _ c :: rest =>
      (match raises c with
        | some e => some e
        | none => execStmts raises rest)
  | attrRead _ _ _ :: rest => execStmts raises rest
  | attrWrite _ _ _ :: rest => execStmts raises rest
  | tryExcept body handler :: rest =>
      (match execCalls raises body with
        | some _ =>
            (match execCalls raises handler with
              | some e => some e
              | none => execStmts raises rest)
        | none => execStmts raises rest)
  | defineFunction _ :: rest => execStmts raises rest

/-- Modelled from the spec: per section 6, the only output artifacts the
script requests from the engine are the file created by `hoomd.analyze.log`
and the file created by `hoomd.dump.gsd`, each named by the call's
`filename` argument; no other configuration call of the engine API used
here touches files, network ports, or environment variables at the
script's level of abstraction.  (The engine itself is external code, not
part of this repository.) -/
def requestedFiles (s : PyStmt) : List String :=
  if isAnalyzeLog s || isDumpGsd s then
    match (callOf s).bind (fun c => argOf c ("filename")) with
    | some (str f) => [f]
    | _ => []
  else []

/-- Modelled from the spec: the particle types of the simple cubic unit
cell built by `hoomd.lattice.sc` — one particle per unit cell, of the
engine's default type `A`.  (The `hoomd.lattice` module is external
engine code, not part of this repository.) -/
def scUnitCellTypes : List String := ["A"]

/-- Modelled from the spec: the number of particles `create_lattice`
produces when replicating a unit cell `n` times along each of the three
spatial dimensions — one particle per simple cubic cell, `n ^ 3` cells. -/
def latticeParticleCount (n : ℕ) : ℕ :=
  scUnitCellTypes.length * n ^ 3

/-- Modelled from the spec: the edge length of the cubic box built from
`n` replicas per dimension of a simple cubic cell of lattice constant
`a`. -/
def latticeBoxEdge (a : ℚ) (n : ℕ) : ℚ :=
  a * n

/-- In a statement list containing no try/except, execution is exactly
sequential execution of the top-level calls: the first raised exception,
verbatim, is the outcome at the process boundary. -/
theorem execStmts_eq_execCalls_of_no_try (raises : Call → Option String)
    (stmts : List PyStmt) (h : tryCount stmts = 0) :
    execStmts raises stmts = execCalls raises (topCalls stmts) := by
  induction stmts with
  | nil => rfl
  | cons s rest ih =>
    cases s with
    | importMod m =>
      have h' : tryCount rest = 0 := by simpa [tryCount] using h
      simpa [execStmts, topCalls, callOf] using ih h'
    | exprCall c =>
      have h' : tryCount rest = 0 := by simpa [tryCount] using h
      cases hr : raises c with
      | some e => simp [execStmts, topCalls, callOf, execCalls, hr]
      | none => simp [execStmts, topCalls, callOf, execCalls, hr, ih h']
    | assignCall t c =>
      have h' : tryCount rest = 0 := by simpa [tryCount] using h
      cases hr : raises c with
      | some e => simp [execStmts, topCalls, callOf, execCalls, hr]
      | none => simp [execStmts, topCalls, callOf, execCalls, hr, ih h']
    | attrRead t hdl attrs =>
      have h' : tryCount rest = 0 := by simpa [tryCount] using h
      simpa [execStmts, topCalls, callOf] using ih h'
    | attrWrite hdl attrs v =>
      have h' : tryCount rest = 0 := by simpa [tryCount] using h
      simpa [execStmts, topCalls, callOf] using ih h'
    | tryExcept body handler =>
      simp [tryCount] at h
    | defineFunction nm =>
      have h' : tryCount rest = 0 := by simpa [tryCount] using h
      simpa [execStmts, topCalls, callOf] using ih h'

/-- C1: the script requests exactly one plain-text log output, via
`hoomd.analyze.log`, with the fixed filename `log-output.log`, recording
the single scalar quantity `potential_energy`, sampled with period 100
steps, and `overwrite=True`. -/
theorem log_output_unique_and_configured :
    script.filter isAnalyzeLog =
      [exprCall ⟨libFn ["hoomd", "analyze", "log"],
        [("filename", str ("log-output.log")),
         ("quantities", strList ["potential_energy"]),
         ("period", num 100), ("overwrite", bool true)]⟩] := by
  decide

/-- C2: the script requests exactly one binary trajectory output, via
`hoomd.dump.gsd`, with the fixed filename `trajectory.gsd`, snapshot
period 2000 steps, the group of all particles (the handle bound by the
script's single `hoomd.group.all()` call), and `overwrite=True`. -/
theorem gsd_output_unique_and_configured :
    script.filter isDumpGsd =
      [exprCall ⟨libFn ["hoomd", "dump", "gsd"],
        [("filename", str ("trajectory.gsd")), ("period", num (2e3)),
         ("group", handle .allGroup), ("overwrite", bool true)]⟩] ∧
    (2e3 : ℚ) = 2000 ∧
    script.filter isGroupAll =
      [assignCall .allGroup ⟨libFn ["hoomd", "group", "all"], []⟩] :=
  ⟨rfl, by norm_num, rfl⟩

/-- C3: the final statement of the script is the single `hoomd.run` call,
executing 10^4 time steps; no run call occurs earlier and no statement
follows it.  (The embedding is an ordered statement list executed front
to back, so the calls are issued sequentially and the run call is the
last thing the script does.) -/
theorem run_is_final_statement :
    script.getLast? =
      some (exprCall ⟨libFn ["hoomd", "run"], [("tsteps", num (1e4))]⟩) ∧
    (1e4 : ℚ) = 10 ^ 4 ∧
    script.filter isRunCall =
      [exprCall ⟨libFn ["hoomd", "run"], [("tsteps", num (1e4))]⟩] ∧
    script.dropLast.filter isRunCall = [] :=
  ⟨rfl, by norm_num, rfl, rfl⟩

/-- C4 as stated is false: the script does not consist of exactly five
external-library invocations.  Counting every library call it performs —
the nested `hoomd.lattice.sc(a=2.0)` evaluated in argument position on
source line 6 included — there are twelve invocations, and even grouped
into the claim's own ordered listing of stages there are six stages; in
neither reading is the count five. -/
theorem five_invocations_refuted :
    (allLibCalls script).length = 12 ∧
    ¬ (allLibCalls script).length = 5 ∧
    ((allLibCalls script).filterMap
      (fun c => calleePhase c.callee)).dedup.length = 6 ∧
    ¬ ((allLibCalls script).filterMap
      (fun c => calleePhase c.callee)).dedup.length = 5 := by
  decide

/-- C4 (amended): the script reduces to a linear sequence of twelve
external-library invocations — the nested `hoomd.lattice.sc` call
included — grouped into six stages performed in the order: initialize
context, then build lattice, then define potential, then define
integrator, then define output writers, then run; every statement is a
`hoomd` module import or a direct `hoomd` call, and the only data
flowing between statements are engine handles, each used only after
the statement that bound it. -/
theorem linear_sequence_of_stages :
    (allLibCalls script).length = 12 ∧
    (allLibCalls script).map (fun c => calleePhase c.callee) =
      [some .initContext, some .buildLattice, some .buildLattice,
       some .definePotential, some .definePotential, some .definePotential,
       some .defineIntegrator, some .defineIntegrator, some .defineIntegrator,
       some .defineOutput, some .defineOutput, some .runSim] ∧
    ((allLibCalls script).filterMap
      (fun c => calleePhase c.callee)).dedup =
      [.initContext, .buildLattice, .definePotential,
       .defineIntegrator, .defineOutput, .runSim] ∧
    script.all (fun s => isImport s || isLibCall s) = true ∧
    handlesWellScoped script = true := by
  decide

/-- C5: the script implements no error handling: it contains no
try/except (and no call is issued twice, so there is no retry), and under
every oracle of which library calls raise, executing the script yields
exactly the sequential execution of its top-level calls — the first
exception raised by an external call reaches the process boundary
verbatim, with no recovery or translation. -/
theorem no_error_handling :
    tryCount script = 0 ∧
    (topCalls script).Nodup ∧
    ∀ raises : Call → Option String,
      execStmts raises script = execCalls raises (topCalls script) :=
  ⟨by decide, by decide,
    fun raises => execStmts_eq_execCalls_of_no_try raises script (by decide)⟩

/-- C6: every statement of the script that uses a handle is a library
call in which the handle occurs only in call-input position (as an
argument or as the method receiver, which Python passes to the bound
library function); the script contains no attribute read or attribute
write on a handle (it never inspects or directly mutates handle state,
and binds no handle state to anything it could persist), and every
handle use occurs after the statement that bound the handle, i.e. in a
subsequent call. -/
theorem handles_opaque :
    script.all (fun s => ! inspectsOrMutatesHandle s) = true ∧
    script.all (fun s => (usedHandles s).isEmpty || (callOf s).isSome) = true ∧
    handlesWellScoped script = true := by
  decide

/-- C7: the only output artifacts the script requests are the two
configured files, `log-output.log` and `trajectory.gsd`; every statement
of the script is a `hoomd` import or a call into the `hoomd` library, so
the script itself touches no other file, opens no network port, and
reads or writes no environment variable. -/
theorem only_two_output_files :
    script.flatMap requestedFiles = ["log-output.log", "trajectory.gsd"] ∧
    script.all isHoomdOnly = true := by
  decide

/-- C8: the script selects the standard integration mode with time step
`dt = 0.005` and attaches a Langevin thermostat with temperature
`kT = 0.2` and seed 42, applied to the group of all particles (the
handle bound by the script's `hoomd.group.all()` call). -/
theorem integrator_configuration :
    script.filter isModeStandard =
      [exprCall ⟨libFn ["hoomd", "md", "integrate", "mode_standard"],
        [("dt", num 0.005)]⟩] ∧
    script.filter isLangevin =
      [exprCall ⟨libFn ["hoomd", "md", "integrate", "langevin"],
        [("group", handle .allGroup), ("kT", num 0.2), ("seed", num 42)]⟩] ∧
    script.filter isGroupAll =
      [assignCall .allGroup ⟨libFn ["hoomd", "group", "all"], []⟩] :=
  ⟨rfl, rfl, rfl⟩

/-- C9: the scientific-notation literals configuring the trajectory
period and the run length denote exactly the integers 2000 and 10000
(their exact rational values have denominator 1), the log period is 100,
and the run length is an exact multiple of both periods: 100 sampling
intervals of the log writer and 5 snapshot intervals of the trajectory
writer, so the final step falls on a sampling boundary of both. -/
theorem float_literals_exact_multiples :
    firstCallArg isDumpGsd ("period") = some (num (2e3)) ∧
    firstCallArg isRunCall ("tsteps") = some (num (1e4)) ∧
    firstCallArg isAnalyzeLog ("period") = some (num 100) ∧
    (2e3 : ℚ).den = 1 ∧ (2e3 : ℚ) = 2000 ∧
    (1e4 : ℚ).den = 1 ∧ (1e4 : ℚ) = 10000 ∧
    (10000 : ℕ) = 100 * 100 ∧ (10000 : ℕ) = 5 * 2000 :=
  ⟨rfl, rfl, rfl, by norm_num, by norm_num, by norm_num, by norm_num,
    by norm_num, by norm_num⟩

/-- C10: the script builds a simple cubic lattice of lattice constant
`a = 2.0` replicated `n = 5` times per dimension, which yields
`5 ^ 3 = 125` particles of the single type `A` — the same type whose
pair coefficients the script sets — in a cubic box of edge
`5 * 2.0 = 10.0`. -/
theorem lattice_initialization :
    script.filter isCreateLattice =
      [exprCall ⟨libFn ["hoomd", "init", "create_lattice"],
        [("unitcell", latticeSC 2.0), ("n", num 5)]⟩] ∧
    (2.0 : ℚ) = 2 ∧
    latticeParticleCount 5 = 125 ∧
    latticeBoxEdge 2.0 5 = 10 ∧
    scUnitCellTypes = ["A"] ∧
    script.filter isPairCoeffSet =
      [exprCall ⟨method .lj ["pair_coeff", "set"],
        [("type1", str ("A")), ("type2", str ("A")),
         ("epsilon", num 1.0), ("sigma", num 1.0)]⟩] :=
  ⟨rfl, by norm_num, by decide, by norm_num [latticeBoxEdge], rfl, rfl⟩

end HoomdScript
